/-
  Verification of the session/authentication core of the garmin-cli repository.

  Shallow embedding: the TypeScript functions of src/garmin/auth and the
  request client are translated into executable Lean definitions; effectful
  inputs (file contents, clock readings, network responses) become explicit
  parameters, and exceptions become sum types.  Each claim of the spec is
  settled by a theorem about these definitions.
-/
import Mathlib

namespace GarminCli

/-! ## Credential model (src/garmin/types.ts)

`OAuth1Token` / `OAuth2Token` mirror the interfaces in types.ts.  Optional
string fields become `Option String`; JavaScript falsiness of a string field
(`undefined`, `null`, `""`) is modelled by the empty string for the three
required fields, which is exactly what the truthiness checks in
token-store.ts distinguish. -/

/-- OAuth1 token (types.ts `OAuth1Token`): token/secret pair, optional MFA
fields, optional domain. -/
structure OAuth1Token where
  oauth_token : String
  oauth_token_secret : String
  mfa_token : Option String
  mfa_expiration_timestamp : Option String
  domain : Option String
  deriving Repr, DecidableEq

/-- OAuth2 token (types.ts `OAuth2Token`): bearer pair with absolute expiry
instants in Unix seconds.  Numeric fields are `Int` (JS numbers used as
integral epoch seconds). -/
structure OAuth2Token where
  scope : String
  jti : String
  token_type : String
  access_token : String
  refresh_token : String
  expires_in : Int
  expires_at : Int
  refresh_token_expires_in : Int
  refresh_token_expires_at : Int
  deriving Repr, DecidableEq

/-- Session (types.ts `GarminSession`): both tokens plus the domain. -/
structure GarminSession where
  oauth1 : OAuth1Token
  oauth2 : OAuth2Token
  domain : String
  deriving Repr, DecidableEq

/-! ## Token store (src/garmin/auth/token-store.ts)

`loadTokenStore` reads two JSON files and casts them (`as OAuth1Token`,
`as OAuth2Token`) without validation beyond the truthiness of three fields.
A parsed file is therefore an arbitrarily-shaped record: every field that
the cast does not force to exist is an `Option`.  A file on disk is either
missing (`existsSync` false), not valid JSON (`JSON.parse` throws, caught),
or parsed to such a record. -/

/-- The shape `JSON.parse(oauth1_token.json) as OAuth1Token` can take:
the cast performs no validation, so every field may be absent.  The two
string fields whose truthiness is checked are `String` with `""` standing
for absent/empty (both are falsy in JS and indistinguishable to the check
and to later string uses). -/
structure OAuth1File where
  oauth_token : String
  oauth_token_secret : String
  mfa_token : Option String
  mfa_expiration_timestamp : Option String
  domain : Option String
  deriving Repr, DecidableEq

/-- The shape `JSON.parse(oauth2_token.json) as OAuth2Token` can take:
no validation, so all fields except the truthiness-checked `access_token`
may be absent. -/
structure OAuth2File where
  scope : Option String
  jti : Option String
  token_type : Option String
  access_token : String
  refresh_token : Option String
  expires_in : Option Int
  expires_at : Option Int
  refresh_token_expires_in : Option Int
  refresh_token_expires_at : Option Int
  deriving Repr, DecidableEq

/-- State of one credential file in the token directory, as observed by
`loadTokenStore`: missing (`existsSync` false), unreadable/not valid JSON
(read or `JSON.parse` throws inside the `try`), or parsed to a record. -/
inductive FileState (α : Type) where
  | missing : FileState α
  | invalidJson : FileState α
  | parsed : α → FileState α
  deriving Repr, DecidableEq

/-- Session as returned by `loadTokenStore`: the parsed records (not
re-validated beyond the three fields) plus the resolved domain. -/
structure LoadedSession where
  oauth1 : OAuth1File
  oauth2 : OAuth2File
  domain : String
  deriving Repr, DecidableEq

/-- sso-urls.ts `getSsoDomain`. -/
def getSsoDomain (isCn : Bool) : String :=
  if isCn then "garmin.cn" else "garmin.com"

/-- token-store.ts `loadTokenStore` (lines 20–37), with the file system made
explicit: the two file states are the contents of `oauth1_token.json` and
`oauth2_token.json` in `tokenDir`.  Returns `none` when either file is
missing, either parse fails (the surrounding `try/catch`), or any of the
three truthiness-checked fields is falsy; otherwise fills the domain from
the stored value or `getSsoDomain isCn` and returns the records. -/
def loadTokenStore (oauth1File : FileState OAuth1File)
    (oauth2File : FileState OAuth2File) (isCn : Bool) : Option LoadedSession :=
  match oauth1File, oauth2File with
  | .missing, _ => none
  | _, .missing => none
  | .invalidJson, _ => none
  | _, .invalidJson => none
  | .parsed o1, .parsed o2 =>
      if o1.oauth_token = "" ∨ o1.oauth_token_secret = "" ∨ o2.access_token = "" then
        none
      else
        let domain := o1.domain.getD (getSsoDomain isCn)
        some { oauth1 := { o1 with domain := some domain }, oauth2 := o2, domain := domain }

/-- The record `{ ...session.oauth1, domain: session.domain }` that
`saveTokenStore` serialises to `oauth1_token.json`, as read back by
`JSON.parse` (stringify/parse round-trips these flat records field by
field; fields that are `undefined` are omitted and read back as absent). -/
def oauth1ToFile (session : GarminSession) : OAuth1File :=
  { oauth_token := session.oauth1.oauth_token
    oauth_token_secret := session.oauth1.oauth_token_secret
    mfa_token := session.oauth1.mfa_token
    mfa_expiration_timestamp := session.oauth1.mfa_expiration_timestamp
    domain := some session.domain }

/-- The record `session.oauth2` that `saveTokenStore` serialises to
`oauth2_token.json`, as read back by `JSON.parse`: every field of the full
`OAuth2Token` is present. -/
def oauth2ToFile (t : OAuth2Token) : OAuth2File :=
  { scope := some t.scope
    jti := some t.jti
    token_type := some t.token_type
    access_token := t.access_token
    refresh_token := some t.refresh_token
    expires_in := some t.expires_in
    expires_at := some t.expires_at
    refresh_token_expires_in := some t.refresh_token_expires_in
    refresh_token_expires_at := some t.refresh_token_expires_at }

/-- token-store.ts `saveTokenStore` (lines 44–57), with the file system made
explicit: the pair of file states written to the token directory. -/
def saveTokenStore (session : GarminSession) :
    FileState OAuth1File × FileState OAuth2File :=
  (.parsed (oauth1ToFile session), .parsed (oauth2ToFile session.oauth2))

/-- token-store.ts `isOAuth2Expired` (lines 128–130):
`token.expires_at - marginSeconds < Math.floor(Date.now() / 1000)`, with the
clock reading `now` (Unix seconds) made an explicit parameter. -/
def isOAuth2Expired (token : OAuth2Token) (marginSeconds : Int) (now : Int) : Bool :=
  token.expires_at - marginSeconds < now

/-! ## Login strategy dispatch (src/garmin/auth/auth.ts `login`, lines 58–98)

The network interactions of the two SSO flows are abstracted to their
outcomes.  A flow attempt either completes with a session, suspends for MFA,
or throws an error; the thrown errors that matter to the dispatch logic are
the `AuthError` subclasses of auth-error.ts plus everything else. -/

/-- Configured SSO strategy (`config.authStrategy ?? 'auto'`). -/
inductive Strategy where
  | mobile
  | embed
  | auto
  deriving Repr, DecidableEq

/-- Kind of error thrown by a flow branch: the two confirmed-failure
`AuthError` subclasses thrown by sso-mobile.ts / sso-embed.ts, or any other
error (network failure, bot-mitigation, OAuth exchange failure, …). -/
inductive ErrKind where
  | invalidCredentials
  | mfaCodeInvalid
  | other
  deriving Repr, DecidableEq

/-- Outcome of running one flow branch of `login` (ticket acquisition
followed by the OAuth1/OAuth2 exchanges): a session, an MFA suspension
(`mfa_required` result), or a thrown error. -/
inductive FlowOutcome where
  | success
  | mfaRequired
  | failure : ErrKind → FlowOutcome
  deriving Repr, DecidableEq

/-- Which flow produced a `login` result. -/
inductive Flow where
  | mobile
  | embed
  deriving Repr, DecidableEq

/-- Result of `login`: a session or MFA state tagged with the producing
flow, or a thrown error tagged with the flow whose throw propagated. -/
inductive LoginResult where
  | session : Flow → LoginResult
  | needsMfa : Flow → LoginResult
  | error : ErrKind → Flow → LoginResult
  deriving Repr, DecidableEq

/-- The embed branch of `login` (auth.ts lines 88–98): runs to a session,
MFA suspension, or propagates the thrown error. -/
def loginEmbedBranch (embed : FlowOutcome) : LoginResult :=
  match embed with
  | .success => .session .embed
  | .mfaRequired => .needsMfa .embed
  | .failure e => .error e .embed

/-- auth.ts `login` strategy dispatch (lines 58–98).  For `mobile` and
`auto` the mobile branch runs inside `try`; the `catch` rethrows only when
`strategy === 'mobile'` and otherwise falls through to the embed branch —
for every error kind, with no special case for `InvalidCredentialsError` or
`MfaCodeInvalidError`.  For `embed` only the embed branch runs. -/
def login (strategy : Strategy) (mobile embed : FlowOutcome) : LoginResult :=
  match strategy with
  | .embed => loginEmbedBranch embed
  | .mobile =>
      match mobile with
      | .success => .session .mobile
      | .mfaRequired => .needsMfa .mobile
      | .failure e => .error e .mobile
  | .auto =>
      match mobile with
      | .success => .session .mobile
      | .mfaRequired => .needsMfa .mobile
      | .failure _ => loginEmbedBranch embed

/-! ## OAuth2 exchange response handling
(src/garmin/auth/oauth-exchange.ts `exchangeOAuth2`, lines 83–124)

Only the construction of the returned token from the successful response
body is modelled; `now = Math.floor(Date.now() / 1000)` at receipt time is
an explicit parameter.  A numeric response field is `Option Int`: `none`
models an absent or non-numeric value, for which `Number(x) || 0` yields 0
(`Number(undefined)` is `NaN`, which is falsy). -/

/-- The fields of the exchange response body that `exchangeOAuth2` reads. -/
structure ExchangeResponse where
  scope : Option String
  jti : Option String
  token_type : Option String
  access_token : Option String
  refresh_token : Option String
  expires_in : Option Int
  refresh_token_expires_in : Option Int
  deriving Repr, DecidableEq

/-- oauth-exchange.ts `exchangeOAuth2`, lines 110–123: the token built from
the response at receipt time `now`.  `String(raw.x ?? d)` becomes
`getD`, `Number(raw.expires_in) || 0` becomes `getD 0`. -/
def exchangeOAuth2Build (raw : ExchangeResponse) (now : Int) : OAuth2Token :=
  let expiresIn := raw.expires_in.getD 0
  let refreshExpiresIn := raw.refresh_token_expires_in.getD 0
  { scope := raw.scope.getD ""
    jti := raw.jti.getD ""
    token_type := raw.token_type.getD "Bearer"
    access_token := raw.access_token.getD ""
    refresh_token := raw.refresh_token.getD ""
    expires_in := expiresIn
    expires_at := now + expiresIn
    refresh_token_expires_in := refreshExpiresIn
    refresh_token_expires_at := now + refreshExpiresIn }

/-! ## Authenticated request client (src/garmin/client.ts
`GarminClient.requestWithAuthRetry`, lines 104–176)

`doRequest` is an effectful closure; its behaviour is abstracted to the
sequence of outcomes of its successive invocations, given as a function
from the invocation index (0-based) to the outcome.  An axios call either
resolves with a response (whose status may still be an error status when a
permissive `validateStatus` is installed), rejects with an `AxiosError`
carrying a response status (the default `validateStatus` rejects every
status ≥ 400), or rejects with a transport-level error with no response. -/

/-- Outcome of one `doRequest()` invocation. -/
inductive Outcome where
  | ok : Nat → Outcome
  | thrownStatus : Nat → Outcome
  | thrownNet : Bool → Outcome
  deriving Repr, DecidableEq

/-- An error propagating out of the retry machinery: an axios error with a
response status, or a transport error (the `Bool` records whether
client.ts `isRetryableNetworkError`, lines 83–92, holds of it: code
`ECONNRESET`/`ETIMEDOUT`/`ECONNABORTED` or a `socket hang up` message).
An error that carries a response status has none of those codes, so it is
never network-retryable. -/
inductive ReqError where
  | status : Nat → ReqError
  | net : Bool → ReqError
  deriving Repr, DecidableEq

/-- client.ts `isRetryableNetworkError` evaluated on a propagated error. -/
def isRetryableNetworkError : ReqError → Bool
  | .status _ => false
  | .net b => b

/-- client.ts `isRetryableGatewayStatus`, lines 95–97. -/
def isRetryableGatewayStatus (status : Nat) : Bool :=
  status == 502 || status == 503 || status == 504

/-- Effect counters of one `requestWithAuthRetry` run: how many times
`doRequest` ran and how many times `refreshSession` ran. -/
structure ExecState where
  calls : Nat
  refreshes : Nat
  deriving Repr, DecidableEq

/-- Invoke `doRequest()` once: read the next outcome of the sequence. -/
def doReq (f : Nat → Outcome) (s : ExecState) : Outcome × ExecState :=
  (f s.calls, { s with calls := s.calls + 1 })

/-- How the body of one outer-loop iteration of `requestWithAuthRetry`
finishes: a `return res`/`return doRequest()` with a response, or a throw
that reaches the outer `catch` (line 160). -/
inductive Inner where
  | returned : Nat → Inner
  | threw : ReqError → Inner
  deriving Repr, DecidableEq

/-- Lines 119–121 and 144–146: on a 401, `refreshSession()` then
`return doRequest()` — the second response is returned as-is; a rejection
of the second call propagates to the outer `catch`. -/
def retryAfter401 (f : Nat → Outcome) (s : ExecState) : Inner × ExecState :=
  let s' := { s with refreshes := s.refreshes + 1 }
  match doReq f s' with
  | (.ok st, s'') => (.returned st, s'')
  | (.thrownStatus st, s'') => (.threw (.status st), s'')
  | (.thrownNet b, s'') => (.threw (.net b), s'')

/-- Lines 125–139: gateway retry loop for the rejected-promise path.
Each iteration re-invokes `doRequest`; a resolution is returned as-is, a
rejection with a non-gateway status (or no status) is rethrown, a rejection
with a gateway status continues the loop; after `remaining` iterations the
original error `err` (status `origStatus`) is rethrown. -/
def gatewayThrownLoop (f : Nat → Outcome) (origStatus : Nat) :
    Nat → ExecState → Inner × ExecState
  | 0, s => (.threw (.status origStatus), s)
  | remaining + 1, s =>
      match doReq f s with
      | (.ok st, s') => (.returned st, s')
      | (.thrownStatus st, s') =>
          if isRetryableGatewayStatus st then gatewayThrownLoop f origStatus remaining s'
          else (.threw (.status st), s')
      | (.thrownNet b, s') => (.threw (.net b), s')

/-- Lines 148–158: gateway retry loop for the resolved-response path.
Each iteration re-invokes `doRequest`; a response with status `< 400` or a
non-gateway status is returned immediately, a gateway status replaces `res`
and continues; after `remaining` iterations the last gateway response is
returned (and then `return res`).  A rejection inside the loop propagates
to the outer `catch`. -/
def gatewayOkLoop (f : Nat → Outcome) (cur : Nat) :
    Nat → ExecState → Inner × ExecState
  | 0, s => (.returned cur, s)
  | remaining + 1, s =>
      match doReq f s with
      | (.ok st, s') =>
          if st < 400 || !isRetryableGatewayStatus st then (.returned st, s')
          else gatewayOkLoop f st remaining s'
      | (.thrownStatus st, s') => (.threw (.status st), s')
      | (.thrownNet b, s') => (.threw (.net b), s')

/-- Lines 113–159: the body of one outer-loop iteration, from the first
`doRequest()` to either a `return` or a throw reaching the outer `catch`.
`gatewayRetries` is `totalGatewayAttempts - 1`. -/
def innerBody (f : Nat → Outcome) (gatewayRetries : Nat) (s : ExecState) :
    Inner × ExecState :=
  match doReq f s with
  | (.thrownStatus st, s') =>
      if st = 401 then retryAfter401 f s'
      else if isRetryableGatewayStatus st then gatewayThrownLoop f st gatewayRetries s'
      else (.threw (.status st), s')
  | (.thrownNet b, s') => (.threw (.net b), s')
  | (.ok st, s') =>
      if st = 401 then retryAfter401 f s'
      else if isRetryableGatewayStatus st then gatewayOkLoop f st gatewayRetries s'
      else (.returned st, s')

/-- Lines 112 and 160–173: the outer `for (attempt = 0..connectionRetries)`
loop with its `catch`: a network-retryable error with attempts remaining
continues after a delay; anything else is rethrown.  `connRemaining` is
`connectionRetries - attempt`. -/
def outerLoop (f : Nat → Outcome) (gatewayRetries : Nat) :
    Nat → ExecState → (ReqError ⊕ Nat) × ExecState
  | connRemaining, s =>
      match innerBody f gatewayRetries s with
      | (.returned st, s') => (.inr st, s')
      | (.threw e, s') =>
          match connRemaining with
          | 0 => (.inl e, s')
          | r + 1 =>
              if isRetryableNetworkError e then outerLoop f gatewayRetries r s'
              else (.inl e, s')

/-- client.ts `requestWithAuthRetry` (lines 104–176), with defaults
`connectionRetries = 2`, `gatewayRetries = 2` at the call sites.  Returns
the terminal result (`inr status` for a returned response, `inl` for a
thrown error) together with the effect counters. -/
def requestWithAuthRetry (f : Nat → Outcome)
    (connectionRetries gatewayRetries : Nat) : (ReqError ⊕ Nat) × ExecState :=
  outerLoop f gatewayRetries connectionRetries ⟨0, 0⟩

/-- client.ts `connectapi` (lines 217–224) applied to the result of
`requestWithAuthRetry`: a returned response with status ≥ 400 is raised as
`Connect API <status>`. -/
def connectapiOutcome (f : Nat → Outcome) (c g : Nat) : ReqError ⊕ Nat :=
  match requestWithAuthRetry f c g with
  | (.inr st, _) => if 400 ≤ st then .inl (.status st) else .inr st
  | (.inl e, _) => .inl e

/-- Number of `doRequest` invocations of one `requestWithAuthRetry` run. -/
def requestCalls (f : Nat → Outcome) (c g : Nat) : Nat :=
  (requestWithAuthRetry f c g).2.calls

/-- Number of `refreshSession` invocations of one run. -/
def requestRefreshes (f : Nat → Outcome) (c g : Nat) : Nat :=
  (requestWithAuthRetry f c g).2.refreshes

/-! ## Single-flight refresh (src/garmin/client.ts `refreshSession`,
lines 60–73)

JavaScript is single-threaded: an `async` function body runs atomically
between `await` points.  In `refreshSession` there is no `await` between
the `if (this.refreshPromise)` check and `this.refreshPromise = promise`,
so the entry of each concurrent caller is one atomic step; the `finally`
block that clears `refreshPromise` runs when the in-flight refresh
settles.  Concurrent use of one client instance is modelled as an
interleaving of these atomic events. -/

/-- Shared state of one `GarminClient` instance relevant to refresh. -/
structure RefreshState where
  /-- `this.refreshPromise !== null`. -/
  inFlight : Bool
  /-- Number of `refreshOAuth2` invocations (underlying OAuth2 exchanges). -/
  exchanges : Nat
  /-- Callers currently awaiting the shared in-flight promise. -/
  waiters : Nat
  deriving Repr, DecidableEq

/-- One caller enters `refreshSession` (lines 61–66, atomic up to the first
`await`): if a refresh is in flight it awaits that same promise; otherwise
it invokes `refreshOAuth2` and publishes the promise. -/
def refreshSessionEntry (s : RefreshState) : RefreshState :=
  if s.inFlight then { s with waiters := s.waiters + 1 }
  else { s with inFlight := true, exchanges := s.exchanges + 1 }

/-- The in-flight refresh settles: the `finally` (line 71) clears
`refreshPromise` and every waiter resumes. -/
def refreshComplete (s : RefreshState) : RefreshState :=
  { s with inFlight := false, waiters := 0 }

/-- Interleaving events on one client instance. -/
inductive RefreshEvent where
  | enter
  | complete
  deriving Repr, DecidableEq

/-- Run a sequence of interleaved events. -/
def runRefresh (events : List RefreshEvent) (s : RefreshState) : RefreshState :=
  match events with
  | [] => s
  | .enter :: rest => runRefresh rest (refreshSessionEntry s)
  | .complete :: rest => runRefresh rest (refreshComplete s)

/-- A fresh client with no refresh in flight. -/
def initialRefreshState : RefreshState := ⟨false, 0, 0⟩

/-! ## Byte-level primitives used by the signed-request embedding

The signing code of src/garmin/auth/oauth1.ts uses `encodeURIComponent`,
`new URL`, `URLSearchParams`, `String.prototype.toUpperCase` and node's
`createHmac('sha1', …)` / base64 digests.  These platform primitives are
given executable Lean definitions over `Nat`-valued bytes: UTF-8 encoding
and decoding, SHA-1 (RFC 3174), HMAC (RFC 2104) and base64. -/

/-- UTF-8 encoding of one code point. -/
def utf8EncodeChar (c : Char) : List Nat :=
  let n := c.toNat
  if n < 0x80 then [n]
  else if n < 0x800 then [0xC0 + n / 0x40, 0x80 + n % 0x40]
  else if n < 0x10000 then
    [0xE0 + n / 0x1000, 0x80 + (n / 0x40) % 0x40, 0x80 + n % 0x40]
  else
    [0xF0 + n / 0x40000, 0x80 + (n / 0x1000) % 0x40, 0x80 + (n / 0x40) % 0x40,
     0x80 + n % 0x40]

/-- UTF-8 bytes of a string. -/
def utf8Bytes (s : String) : List Nat :=
  (s.data.map utf8EncodeChar).flatten

/-- UTF-8 decoding (fuel-based for totality; fuel = byte count suffices
because every step consumes at least one byte). -/
def utf8DecodeFuel : Nat → List Nat → List Char
  | 0, _ => []
  | _, [] => []
  | fuel + 1, b0 :: rest =>
      if b0 < 0xC0 then Char.ofNat b0 :: utf8DecodeFuel fuel rest
      else if b0 < 0xE0 then
        match rest with
        | b1 :: rest2 =>
            Char.ofNat ((b0 % 0x20) * 0x40 + b1 % 0x40) :: utf8DecodeFuel fuel rest2
        | [] => []
      else if b0 < 0xF0 then
        match rest with
        | b1 :: b2 :: rest3 =>
            Char.ofNat ((b0 % 0x10) * 0x1000 + (b1 % 0x40) * 0x40 + b2 % 0x40) ::
              utf8DecodeFuel fuel rest3
        | _ => []
      else
        match rest with
        | b1 :: b2 :: b3 :: rest4 =>
            Char.ofNat ((b0 % 8) * 0x40000 + (b1 % 0x40) * 0x1000 +
              (b2 % 0x40) * 0x40 + b3 % 0x40) :: utf8DecodeFuel fuel rest4
        | _ => []

/-- Decode a UTF-8 byte list to a string. -/
def utf8Decode (bytes : List Nat) : String :=
  String.mk (utf8DecodeFuel bytes.length bytes)

/-- 32-bit left rotation over `Nat` (words are kept `< 2 ^ 32`). -/
def rotl32 (n x : Nat) : Nat :=
  (((x <<< n) % 2 ^ 32) ||| (x >>> (32 - n)))

/-- Big-endian byte expansion, `count` bytes. -/
def beBytes (n count : Nat) : List Nat :=
  (List.range count).map (fun i => (n / 256 ^ (count - 1 - i)) % 256)

/-- Group bytes into big-endian 32-bit words. -/
def bytesToWords : List Nat → List Nat
  | b0 :: b1 :: b2 :: b3 :: rest =>
      (b0 * 0x1000000 + b1 * 0x10000 + b2 * 0x100 + b3) :: bytesToWords rest
  | _ => []

/-- SHA-1 padding: append `0x80`, zero-fill to 56 mod 64, then the bit
length as 8 big-endian bytes. -/
def sha1Pad (msg : List Nat) : List Nat :=
  let zeros := (120 - (msg.length + 1) % 64) % 64
  msg ++ [0x80] ++ List.replicate zeros 0 ++ beBytes (msg.length * 8) 8

/-- One step of the SHA-1 message-schedule extension; `acc` holds the words
produced so far, most recent first. -/
def sha1ExtendStep (acc : List Nat) : Nat :=
  rotl32 1 ((acc.getD 2 0) ^^^ (acc.getD 7 0) ^^^ (acc.getD 13 0) ^^^ (acc.getD 15 0))

/-- Extend the schedule by `n` words. -/
def sha1BuildSchedule : Nat → List Nat → List Nat
  | 0, acc => acc.reverse
  | n + 1, acc => sha1BuildSchedule n (sha1ExtendStep acc :: acc)

/-- The 80-word schedule of one 512-bit block (given as 16 words). -/
def sha1Schedule (ws : List Nat) : List Nat :=
  sha1BuildSchedule 64 ws.reverse

/-- SHA-1 round function. -/
def sha1F (t b c d : Nat) : Nat :=
  if t < 20 then (b &&& c) ||| ((b ^^^ 0xFFFFFFFF) &&& d)
  else if t < 40 then b ^^^ c ^^^ d
  else if t < 60 then (b &&& c) ||| (b &&& d) ||| (c &&& d)
  else b ^^^ c ^^^ d

/-- SHA-1 round constants. -/
def sha1K (t : Nat) : Nat :=
  if t < 20 then 0x5A827999
  else if t < 40 then 0x6ED9EBA1
  else if t < 60 then 0x8F1BBCDC
  else 0xCA62C1D6

/-- Compress one 64-byte block into the running 5-word state. -/
def sha1Compress (h : List Nat) (block : List Nat) : List Nat :=
  let ws := sha1Schedule (bytesToWords block)
  let step := fun (st : Nat × Nat × Nat × Nat × Nat) (tw : Nat × Nat) =>
    let (a, b, c, d, e) := st
    let (t, w) := tw
    let temp := (rotl32 5 a + sha1F t b c d + e + sha1K t + w) % 2 ^ 32
    (temp, a, rotl32 30 b, c, d)
  let (a, b, c, d, e) :=
    ((List.range 80).zip ws).foldl step
      (h.getD 0 0, h.getD 1 0, h.getD 2 0, h.getD 3 0, h.getD 4 0)
  [(h.getD 0 0 + a) % 2 ^ 32, (h.getD 1 0 + b) % 2 ^ 32, (h.getD 2 0 + c) % 2 ^ 32,
   (h.getD 3 0 + d) % 2 ^ 32, (h.getD 4 0 + e) % 2 ^ 32]

/-- Split into 64-byte blocks (fuel = list length suffices). -/
def chunks64Fuel : Nat → List Nat → List (List Nat)
  | 0, _ => []
  | _, [] => []
  | fuel + 1, l => l.take 64 :: chunks64Fuel fuel (l.drop 64)

/-- SHA-1 digest (20 bytes) of a byte list. -/
def sha1 (msg : List Nat) : List Nat :=
  let padded := sha1Pad msg
  let finalH := (chunks64Fuel padded.length padded).foldl sha1Compress
    [0x67452301, 0xEFCDAB89, 0x98BADCFE, 0x10325476, 0xC3D2E1F0]
  (finalH.map (fun w => beBytes w 4)).flatten

/-- HMAC-SHA1 (RFC 2104) over byte lists. -/
def hmacSha1 (key msg : List Nat) : List Nat :=
  let key := if key.length > 64 then sha1 key else key
  let key := key ++ List.replicate (64 - key.length) 0
  let opad := key.map (fun b => b ^^^ 0x5C)
  let ipad := key.map (fun b => b ^^^ 0x36)
  sha1 (opad ++ sha1 (ipad ++ msg))

/-- The base64 alphabet. -/
def base64Alphabet : List Char :=
  "ABCDEFGHIJKLMNOPQRSTUVWXYZabcdefghijklmnopqrstuvwxyz0123456789+/".data

/-- Character at a 6-bit index of the base64 alphabet. -/
def base64Char (n : Nat) : Char :=
  base64Alphabet.getD n (Char.ofNat 65)

/-- Base64 encoding of a byte list, with `=` padding. -/
def base64Encode : List Nat → String
  | b0 :: b1 :: b2 :: rest =>
      let n := b0 * 0x10000 + b1 * 0x100 + b2
      String.mk [base64Char (n / 0x40000), base64Char ((n / 0x1000) % 64),
        base64Char ((n / 64) % 64), base64Char (n % 64)] ++ base64Encode rest
  | [b0, b1] =>
      let n := b0 * 0x10000 + b1 * 0x100
      String.mk [base64Char (n / 0x40000), base64Char ((n / 0x1000) % 64),
        base64Char ((n / 64) % 64), Char.ofNat 61]
  | [b0] =>
      let n := b0 * 0x10000
      String.mk [base64Char (n / 0x40000), base64Char ((n / 0x1000) % 64),
        Char.ofNat 61, Char.ofNat 61]
  | [] => ""

/-- `createHmac('sha1', key).update(msg).digest('base64')` on strings. -/
def hmacSha1Base64 (key msg : String) : String :=
  base64Encode (hmacSha1 (utf8Bytes key) (utf8Bytes msg))

/-! ## URL and encoding primitives (platform behaviour used by oauth1.ts) -/

/-- Characters `encodeURIComponent` leaves unescaped:
`A–Z a–z 0–9 - _ . ! ~ * ' ( )`. -/
def encodeURIComponentUnreserved (c : Char) : Bool :=
  c.isAlphanum ||
    ['-', '_', '.', '!', '~', '*', Char.ofNat 39, '(', ')'].contains c

/-- Uppercase hexadecimal digit. -/
def hexDigitUpper (n : Nat) : Char :=
  if n < 10 then Char.ofNat (48 + n) else Char.ofNat (55 + n)

/-- Percent-escape of one byte, uppercase hex as `encodeURIComponent`
produces. -/
def percentByte (b : Nat) : List Char :=
  ['%', hexDigitUpper (b / 16), hexDigitUpper (b % 16)]

/-- JavaScript `encodeURIComponent`. -/
def encodeURIComponentJs (s : String) : String :=
  String.mk ((s.data.map (fun c =>
    if encodeURIComponentUnreserved c then [c]
    else ((utf8EncodeChar c).map percentByte).flatten)).flatten)

/-- Value of a hexadecimal digit character, if it is one. -/
def hexVal (c : Char) : Option Nat :=
  let n := c.toNat
  if 48 ≤ n ∧ n ≤ 57 then some (n - 48)
  else if 65 ≤ n ∧ n ≤ 70 then some (n - 55)
  else if 97 ≤ n ∧ n ≤ 102 then some (n - 87)
  else none

/-- `application/x-www-form-urlencoded` percent-decoding to bytes, as
`URLSearchParams` performs on each key and value: `+` becomes a space,
`%XX` becomes a byte, a malformed escape is kept verbatim. -/
def percentDecodeBytes : List Char → List Nat
  | [] => []
  | '%' :: h :: l :: rest =>
      match hexVal h, hexVal l with
      | some a, some b => (16 * a + b) :: percentDecodeBytes rest
      | _, _ => 37 :: percentDecodeBytes (h :: l :: rest)
  | '+' :: rest => 32 :: percentDecodeBytes rest
  | c :: rest => utf8EncodeChar c ++ percentDecodeBytes rest

/-- Decode one form-urlencoded component to a string. -/
def formDecode (s : String) : String :=
  utf8Decode (percentDecodeBytes s.data)

/-- Drop a `#fragment` from a URL string. -/
def stripFragment (url : String) : String :=
  match url.splitOn "#" with
  | [] => ""
  | s :: _ => s

/-- `new URL(url)`: `protocol + '//' + host + pathname`, i.e. everything
before the query and fragment.  (The constructor also canonicalises scheme
case, host case and default ports; the repository only ever signs URLs it
builds itself in canonical form, for which this is the identity.) -/
def urlBase (url : String) : String :=
  match (stripFragment url).splitOn "?" with
  | [] => ""
  | s :: _ => s

/-- The raw query string of a URL: everything after the first `?` (later
`?` characters belong to the query). -/
def urlQueryString (url : String) : String :=
  match (stripFragment url).splitOn "?" with
  | [] => ""
  | [_] => ""
  | _ :: rest => String.intercalate "?" rest

/-- `url.searchParams.entries()`: split the query on `&`, drop empty
pieces, split each piece at the first `=` (no `=` gives an empty value),
percent-decode keys and values. -/
def urlSearchParamsEntries (query : String) : List (String × String) :=
  (query.splitOn "&").filterMap (fun piece =>
    if piece = "" then none
    else
      match piece.splitOn "=" with
      | [] => none
      | [k] => some (formDecode k, "")
      | k :: vs => some (formDecode k, formDecode (String.intercalate "=" vs)))

/-- ASCII uppercase, the effect of `String.prototype.toUpperCase` on the
ASCII method strings the repository uses. -/
def jsToUpperCase (s : String) : String :=
  String.mk (s.data.map (fun c =>
    if 97 ≤ c.toNat ∧ c.toNat ≤ 122 then Char.ofNat (c.toNat - 32) else c))

/-! ## JavaScript record operations

`Record<string, string>` values are modelled as association lists with
distinct keys in insertion order, which is how JS objects with string keys
enumerate. -/

/-- `r[k] = v` on a JS object: overwrite in place or append. -/
def recordSet (r : List (String × String)) (k v : String) : List (String × String) :=
  if r.any (fun p => p.1 = k) then
    r.map (fun p => if p.1 = k then (k, v) else p)
  else r ++ [(k, v)]

/-- `{ ...a, ...b }`: keys of `a` in order (values overridden by `b` where
shared), then the new keys of `b` in order. -/
def recordMerge (a b : List (String × String)) : List (String × String) :=
  b.foldl (fun r p => recordSet r p.1 p.2) a

/-- `obj[k]` (the keys looked up are always present). -/
def recordGet (r : List (String × String)) (k : String) : String :=
  ((r.find? (fun p => p.1 = k)).map (fun p => p.2)).getD ""

/-- Stable insertion of `x` into a sorted list: `x` goes after every
element it is not strictly below, matching JS's stable `Array.sort`. -/
def insertStable (lt : α → α → Bool) (x : α) : List α → List α
  | [] => [x]
  | y :: ys => if lt x y then x :: y :: ys else y :: insertStable lt x ys

/-- Stable sort by a strict comparator. -/
def sortStable (lt : α → α → Bool) (l : List α) : List α :=
  l.foldl (fun acc x => insertStable lt x acc) []

/-! ## OAuth 1.0a signing (src/garmin/auth/oauth1.ts) -/

/-- oauth1.ts `OAuth1Params`: consumer pair plus optional resource-owner
token pair. -/
structure OAuth1SigningParams where
  consumerKey : String
  consumerSecret : String
  token : Option String
  tokenSecret : Option String
  deriving Repr, DecidableEq

/-- oauth1.ts `buildSignatureBaseString` (lines 56–75): entries of the
merged parameter record with defined, non-empty values (percent-encoded),
plus the URL's own query entries (decoded then re-encoded), sorted by key
then value, joined `k=v` with `&`; the base string is
`METHOD&encoded(base URL)&encoded(paramString)`.  The `localeCompare` tie
ordering is modelled as code-point order, which coincides with it on the
ASCII percent-encoded entries being sorted. -/
def buildSignatureBaseString (method url : String)
    (params : List (String × String)) : String :=
  let normalizedUrl := urlBase url
  let fromParams := (params.filter (fun p => p.2 ≠ "")).map
    (fun p => (encodeURIComponentJs p.1, encodeURIComponentJs p.2))
  let fromQuery := (urlSearchParamsEntries (urlQueryString url)).map
    (fun p => (encodeURIComponentJs p.1, encodeURIComponentJs p.2))
  let allEntries := sortStable
    (fun a b => if a.1 = b.1 then decide (a.2 < b.2) else decide (a.1 < b.1))
    (fromParams ++ fromQuery)
  let paramString := String.intercalate "&" (allEntries.map (fun p => p.1 ++ "=" ++ p.2))
  String.intercalate "&"
    [jsToUpperCase method, encodeURIComponentJs normalizedUrl,
     encodeURIComponentJs paramString]

/-- oauth1.ts `buildOAuth1AuthHeader` (lines 24–51), with the two effectful
inputs made explicit parameters: `timestamp` stands for
`String(Math.floor(Date.now() / 1000))` and `nonce` for
`randomBytes(16).toString('hex')`.  Assembles the protocol parameters
(plus `oauth_token` when a truthy token is supplied), merges in the
caller's parameters, signs the base string with
HMAC-SHA1(`enc(consumerSecret)&enc(tokenSecret or empty)`), and emits the
sorted, double-quoted header. -/
def buildOAuth1AuthHeader (method url : String) (params : List (String × String))
    (oauth : OAuth1SigningParams) (timestamp nonce : String) : String :=
  let oauthParams : List (String × String) :=
    [("oauth_consumer_key", oauth.consumerKey),
     ("oauth_signature_method", "HMAC-SHA1"),
     ("oauth_timestamp", timestamp),
     ("oauth_nonce", nonce),
     ("oauth_version", "1.0")]
  let oauthParams :=
    if oauth.token.getD "" ≠ "" then
      oauthParams ++ [("oauth_token", oauth.token.getD "")]
    else oauthParams
  let allParams := recordMerge params oauthParams
  let baseString := buildSignatureBaseString method url allParams
  let signingKey :=
    encodeURIComponentJs oauth.consumerSecret ++ "&" ++
      encodeURIComponentJs (oauth.tokenSecret.getD "")
  let signature := hmacSha1Base64 signingKey baseString
  let oauthParams := oauthParams ++ [("oauth_signature", signature)]
  let keys := sortStable (fun a b => decide (a < b)) (oauthParams.map (fun p => p.1))
  let parts := keys.map (fun k =>
    encodeURIComponentJs k ++ "=\"" ++ encodeURIComponentJs (recordGet oauthParams k) ++ "\"")
  "OAuth " ++ String.intercalate ", " parts

/-! # Theorems settling the claims -/

/-! ## C2 — expiry predicate -/

/-- Claim C2 as stated is false at a concrete input: with
`expires_at = 100` and `marginSeconds = 60`, at the boundary instant
`now = 40 = expires_at - margin` the claim demands `true`
(`now ≥ expires_at - margin` holds), but `isOAuth2Expired` compares with
strict `<` and returns `false`. -/
theorem claim_C2_counterexample :
    ¬ (isOAuth2Expired ⟨"", "", "Bearer", "a", "r", 3600, 100, 0, 0⟩ 60 40 = true ↔
        (40 : Int) ≥ (100 : Int) - 60) := by
  decide

/-- C2, amended: `isOAuth2Expired token margin now` is true iff
`now > expires_at - margin` (strict); at the boundary
`now = expires_at - margin` it returns `false`, not `true`. -/
theorem claim_C2_isOAuth2Expired_strict :
    (∀ (t : OAuth2Token) (m now : Int),
        isOAuth2Expired t m now = true ↔ now > t.expires_at - m) ∧
    (∀ (t : OAuth2Token) (m : Int),
        isOAuth2Expired t m (t.expires_at - m) = false) := by
  constructor
  · intro t m now
    simp only [isOAuth2Expired, decide_eq_true_eq, gt_iff_lt]
  · intro t m
    simp [isOAuth2Expired]

/-! ## C4 — load failures are absent, never propagated -/

/-- Claim C4: `loadTokenStore` maps every failure mode to `none`: a missing
file, a file that does not parse as JSON, and parsed records whose required
fields (`oauth1.oauth_token`, `oauth1.oauth_token_secret`,
`oauth2.access_token`) are missing or empty.  The embedding is a total
function, mirroring the `try/catch` that prevents any read or parse
failure from propagating. -/
theorem claim_C4_load_failures_absent :
    (∀ (f2 : FileState OAuth2File) (isCn : Bool),
        loadTokenStore .missing f2 isCn = none) ∧
    (∀ (f1 : FileState OAuth1File) (isCn : Bool),
        loadTokenStore f1 .missing isCn = none) ∧
    (∀ (f2 : FileState OAuth2File) (isCn : Bool),
        loadTokenStore .invalidJson f2 isCn = none) ∧
    (∀ (f1 : FileState OAuth1File) (isCn : Bool),
        loadTokenStore f1 .invalidJson isCn = none) ∧
    (∀ (o1 : OAuth1File) (o2 : OAuth2File) (isCn : Bool),
        (o1.oauth_token = "" ∨ o1.oauth_token_secret = "" ∨ o2.access_token = "") →
        loadTokenStore (.parsed o1) (.parsed o2) isCn = none) := by
  refine ⟨?_, ?_, ?_, ?_, ?_⟩
  · intro f2 isCn; cases f2 <;> rfl
  · intro f1 isCn; cases f1 <;> rfl
  · intro f2 isCn; cases f2 <;> rfl
  · intro f1 isCn; cases f1 <;> rfl
  · intro o1 o2 isCn h
    simp [loadTokenStore, h]

/-- Witness for C4 at a concrete corrupt cache: a parsed oauth1 record with
an empty `oauth_token` is treated as absent. -/
theorem claim_C4_witness :
    loadTokenStore (.parsed ⟨"", "secret", none, none, none⟩)
      (.parsed ⟨none, none, none, "acc", none, none, none, none, none⟩) false = none :=
  claim_C4_load_failures_absent.2.2.2.2 _ _ false (Or.inl rfl)

/-! ## C10 — exactly three structurally required fields -/

/-- Claim C10: whenever both files parse and the three truthiness-checked
fields are non-empty, `loadTokenStore` returns a present session — no other
field of either record is consulted, so the oauth2 record may lack
`expires_at`, `refresh_token` and every other expiry field. -/
theorem claim_C10_three_required_fields
    (o1 : OAuth1File) (o2 : OAuth2File) (isCn : Bool)
    (h1 : o1.oauth_token ≠ "") (h2 : o1.oauth_token_secret ≠ "")
    (h3 : o2.access_token ≠ "") :
    (loadTokenStore (.parsed o1) (.parsed o2) isCn).isSome = true := by
  simp [loadTokenStore, h1, h2, h3]

/-- Witness for C10: an oauth2 record with non-empty `access_token` but
with `expires_at`, `refresh_token` and every other optional field absent
still loads as present. -/
theorem claim_C10_witness :
    (loadTokenStore (.parsed ⟨"tok", "sec", none, none, none⟩)
      (.parsed ⟨none, none, none, "acc", none, none, none, none, none⟩)
      false).isSome = true :=
  claim_C10_three_required_fields _ _ false (by decide) (by decide) (by decide)

/-! ## C5 — save/load round trip -/

/-- Claim C5 as stated ("for every session") is false at a concrete input:
a session whose oauth2 `access_token` is the empty string is saved intact
by `saveTokenStore`, but `loadTokenStore` then rejects it as structurally
invalid and returns `none` — not a present session. -/
theorem claim_C5_counterexample :
    loadTokenStore
      (saveTokenStore ⟨⟨"tok", "sec", none, none, some "garmin.com"⟩,
        ⟨"s", "j", "Bearer", "", "r", 3600, 100, 86400, 200⟩, "garmin.com"⟩).1
      (saveTokenStore ⟨⟨"tok", "sec", none, none, some "garmin.com"⟩,
        ⟨"s", "j", "Bearer", "", "r", 3600, 100, 86400, 200⟩, "garmin.com"⟩).2
      false = none := by
  decide

/-- C5, amended: for every session whose `oauth1.oauth_token`,
`oauth1.oauth_token_secret` and `oauth2.access_token` are non-empty (the
three fields `loadTokenStore` validates), saving and then loading yields a
present session with identical oauth1 token/secret/MFA fields, identical
oauth2 fields, and the saved region/domain. -/
theorem claim_C5_roundtrip (s : GarminSession) (isCn : Bool)
    (h1 : s.oauth1.oauth_token ≠ "") (h2 : s.oauth1.oauth_token_secret ≠ "")
    (h3 : s.oauth2.access_token ≠ "") :
    ∃ loaded : LoadedSession,
      loadTokenStore (saveTokenStore s).1 (saveTokenStore s).2 isCn = some loaded ∧
      loaded.oauth1.oauth_token = s.oauth1.oauth_token ∧
      loaded.oauth1.oauth_token_secret = s.oauth1.oauth_token_secret ∧
      loaded.oauth1.mfa_token = s.oauth1.mfa_token ∧
      loaded.oauth1.mfa_expiration_timestamp = s.oauth1.mfa_expiration_timestamp ∧
      loaded.oauth2.scope = some s.oauth2.scope ∧
      loaded.oauth2.jti = some s.oauth2.jti ∧
      loaded.oauth2.token_type = some s.oauth2.token_type ∧
      loaded.oauth2.access_token = s.oauth2.access_token ∧
      loaded.oauth2.refresh_token = some s.oauth2.refresh_token ∧
      loaded.oauth2.expires_in = some s.oauth2.expires_in ∧
      loaded.oauth2.expires_at = some s.oauth2.expires_at ∧
      loaded.oauth2.refresh_token_expires_in = some s.oauth2.refresh_token_expires_in ∧
      loaded.oauth2.refresh_token_expires_at = some s.oauth2.refresh_token_expires_at ∧
      loaded.domain = s.domain := by
  refine ⟨⟨oauth1ToFile s, oauth2ToFile s.oauth2, s.domain⟩, ?_, ?_, ?_, ?_, ?_, ?_,
    ?_, ?_, ?_, ?_, ?_, ?_, ?_, ?_, ?_⟩ <;>
    simp [loadTokenStore, saveTokenStore, oauth1ToFile, oauth2ToFile, h1, h2, h3]

/-- Witness for C5 at a concrete session with non-empty required fields. -/
theorem claim_C5_witness :
    ∃ loaded : LoadedSession,
      loadTokenStore
        (saveTokenStore ⟨⟨"tok", "sec", some "m", none, some "garmin.com"⟩,
          ⟨"s", "j", "Bearer", "acc", "r", 3600, 100, 86400, 200⟩, "garmin.com"⟩).1
        (saveTokenStore ⟨⟨"tok", "sec", some "m", none, some "garmin.com"⟩,
          ⟨"s", "j", "Bearer", "acc", "r", 3600, 100, 86400, 200⟩, "garmin.com"⟩).2
        false = some loaded ∧
      loaded.oauth1.oauth_token = "tok" ∧
      loaded.oauth1.oauth_token_secret = "sec" ∧
      loaded.oauth1.mfa_token = some "m" ∧
      loaded.oauth1.mfa_expiration_timestamp = none ∧
      loaded.oauth2.scope = some "s" ∧
      loaded.oauth2.jti = some "j" ∧
      loaded.oauth2.token_type = some "Bearer" ∧
      loaded.oauth2.access_token = "acc" ∧
      loaded.oauth2.refresh_token = some "r" ∧
      loaded.oauth2.expires_in = some 3600 ∧
      loaded.oauth2.expires_at = some 100 ∧
      loaded.oauth2.refresh_token_expires_in = some 86400 ∧
      loaded.oauth2.refresh_token_expires_at = some 200 ∧
      loaded.domain = "garmin.com" :=
  claim_C5_roundtrip _ false (by decide) (by decide) (by decide)

/-! ## C1 — `auto` fallback behaviour -/

/-- Claim C1 as stated is false at a concrete input: with strategy `auto`,
a mobile-flow failure with a confirmed bad-credentials result
(`InvalidCredentialsError`) does not propagate — `login` falls back to the
embed flow (here succeeding), because the `catch` in auth.ts rethrows only
when the strategy is `mobile`.  The same holds for `MfaCodeInvalidError`. -/
theorem claim_C1_counterexample :
    login .auto (.failure .invalidCredentials) .success = .session .embed ∧
    login .auto (.failure .invalidCredentials) .success ≠
      .error .invalidCredentials .mobile ∧
    login .auto (.failure .mfaCodeInvalid) .success = .session .embed := by
  decide

/-- C1, amended: under the `auto` strategy every mobile-flow failure —
including confirmed bad-credentials and bad-MFA-code results — triggers
fallback to the embed flow; immediate propagation of the mobile failure
happens only under the `mobile` strategy. -/
theorem claim_C1_auto_fallback_all_errors :
    (∀ (e : ErrKind) (embed : FlowOutcome),
        login .auto (.failure e) embed = loginEmbedBranch embed) ∧
    (∀ (e : ErrKind) (embed : FlowOutcome),
        login .mobile (.failure e) embed = .error e .mobile) :=
  ⟨fun _ _ => rfl, fun _ _ => rfl⟩

/-! ## C8 — absolute expiries computed at receipt time -/

/-- Claim C8: the token built by `exchangeOAuth2` from a successful
response carries `expires_at = now + expires_in` and
`refresh_token_expires_at = now + refresh_token_expires_in`, where `now` is
the Unix-epoch second at receipt time and the `expires_in` values are the
relative values of the response body (which are also recorded verbatim). -/
theorem claim_C8_absolute_expiries
    (raw : ExchangeResponse) (now e r : Int)
    (he : raw.expires_in = some e) (hr : raw.refresh_token_expires_in = some r) :
    (exchangeOAuth2Build raw now).expires_at = now + e ∧
    (exchangeOAuth2Build raw now).refresh_token_expires_at = now + r ∧
    (exchangeOAuth2Build raw now).expires_in = e ∧
    (exchangeOAuth2Build raw now).refresh_token_expires_in = r := by
  simp [exchangeOAuth2Build, he, hr]

/-- Witness for C8 at a concrete response received at `now = 1000`. -/
theorem claim_C8_witness :
    (exchangeOAuth2Build
      ⟨some "sc", some "j", some "Bearer", some "acc", some "ref",
        some 3600, some 86400⟩ 1000).expires_at = 1000 + 3600 ∧
    (exchangeOAuth2Build
      ⟨some "sc", some "j", some "Bearer", some "acc", some "ref",
        some 3600, some 86400⟩ 1000).refresh_token_expires_at = 1000 + 86400 ∧
    (exchangeOAuth2Build
      ⟨some "sc", some "j", some "Bearer", some "acc", some "ref",
        some 3600, some 86400⟩ 1000).expires_in = 3600 ∧
    (exchangeOAuth2Build
      ⟨some "sc", some "j", some "Bearer", some "acc", some "ref",
        some 3600, some 86400⟩ 1000).refresh_token_expires_in = 86400 :=
  claim_C8_absolute_expiries _ 1000 3600 86400 rfl rfl

/-! ## C9 — single-flight refresh -/

/-- Helper: while a refresh is in flight, further entries only join as
waiters and start no exchange. -/
theorem runRefresh_enters_inflight (k e w : Nat) :
    runRefresh (List.replicate k .enter) ⟨true, e, w⟩ = ⟨true, e, w + k⟩ := by
  induction k generalizing w with
  | zero => rfl
  | succ n ih =>
      simp only [List.replicate, runRefresh, refreshSessionEntry, if_pos]
      rw [ih]
      congr 1
      omega

/-- Claim C9: when `n + 1` concurrent callers of one client instance all
enter `refreshSession` during one wave (before the in-flight refresh
settles), exactly one underlying `refreshOAuth2` exchange starts — the
first caller's — and the other `n` callers all await that same in-flight
promise. -/
theorem claim_C9_single_flight (n : Nat) :
    runRefresh (List.replicate (n + 1) .enter) initialRefreshState =
      ⟨true, 1, n⟩ := by
  show runRefresh (.enter :: List.replicate n .enter) _ = _
  simp only [runRefresh, initialRefreshState, refreshSessionEntry]
  rw [if_neg (by simp)]
  simpa using runRefresh_enters_inflight n 1 0

/-! ## C3 — one refresh, one retry on 401 -/

/-- A `doRequest` invocation that yields a 401, in either form: a resolved
response with status 401 or a rejected promise carrying status 401 (the
form produced by axios's default `validateStatus`). -/
def is401 (o : Outcome) : Bool :=
  o == .ok 401 || o == .thrownStatus 401

/-- Claim C3: when the first request yields a 401 and the retried request
yields a 401 again, the run performs exactly one `refreshSession`, exactly
two `doRequest` invocations (the original and one retry), and the call
fails with the 401 — no second refresh and no further retries, for every
`connectionRetries`/`gatewayRetries` configuration. -/
theorem claim_C3_single_refresh_single_retry
    (f : Nat → Outcome) (c g : Nat)
    (h0 : is401 (f 0) = true) (h1 : is401 (f 1) = true) :
    connectapiOutcome f c g = .inl (.status 401) ∧
    requestCalls f c g = 2 ∧ requestRefreshes f c g = 1 := by
  have h0' : f 0 = .ok 401 ∨ f 0 = .thrownStatus 401 := by
    simpa [is401] using h0
  have h1' : f 1 = .ok 401 ∨ f 1 = .thrownStatus 401 := by
    simpa [is401] using h1
  rcases h0' with h0' | h0' <;> rcases h1' with h1' | h1' <;> cases c <;>
    simp [connectapiOutcome, requestWithAuthRetry, requestCalls, requestRefreshes,
      outerLoop, innerBody, doReq, retryAfter401, isRetryableNetworkError, h0', h1']

/-- Witness for C3: both invocations reject with status 401 (the default
`validateStatus` behaviour), at the default retry bounds. -/
theorem claim_C3_witness :
    connectapiOutcome (fun _ => .thrownStatus 401) 2 2 = .inl (.status 401) ∧
    requestCalls (fun _ => .thrownStatus 401) 2 2 = 2 ∧
    requestRefreshes (fun _ => .thrownStatus 401) 2 2 = 1 :=
  claim_C3_single_refresh_single_retry _ 2 2 (by decide) (by decide)

/-! ## C6 — bounded gateway retries -/

/-- Claim C6: with `gatewayRetries = 2`, (i) three consecutive rejected
gateway responses (the default `validateStatus` form) make exactly 3
`doRequest` invocations — the initial attempt plus 2 retries — and surface
a gateway failure with no refresh; (ii) the same holds when the three
gateway responses arrive as resolved responses (a permissive
`validateStatus`), surfacing the last gateway status; (iii)/(iv) a
non-gateway error status encountered during the retries is raised as-is,
with no further gateway retries. -/
theorem claim_C6_gateway_retries :
    (∀ (f : Nat → Outcome) (c st0 st1 st2 : Nat),
        f 0 = .thrownStatus st0 → f 1 = .thrownStatus st1 → f 2 = .thrownStatus st2 →
        isRetryableGatewayStatus st0 = true → isRetryableGatewayStatus st1 = true →
        isRetryableGatewayStatus st2 = true →
        connectapiOutcome f c 2 = .inl (.status st0) ∧
          requestCalls f c 2 = 3 ∧ requestRefreshes f c 2 = 0) ∧
    (∀ (f : Nat → Outcome) (c st0 st1 st2 : Nat),
        f 0 = .ok st0 → f 1 = .ok st1 → f 2 = .ok st2 →
        isRetryableGatewayStatus st0 = true → isRetryableGatewayStatus st1 = true →
        isRetryableGatewayStatus st2 = true →
        connectapiOutcome f c 2 = .inl (.status st2) ∧
          requestCalls f c 2 = 3 ∧ requestRefreshes f c 2 = 0) ∧
    (∀ (f : Nat → Outcome) (c st0 st : Nat),
        f 0 = .thrownStatus st0 → f 1 = .thrownStatus st →
        isRetryableGatewayStatus st0 = true → isRetryableGatewayStatus st = false →
        connectapiOutcome f c 2 = .inl (.status st) ∧ requestCalls f c 2 = 2) ∧
    (∀ (f : Nat → Outcome) (c st0 st : Nat),
        f 0 = .ok st0 → f 1 = .ok st →
        isRetryableGatewayStatus st0 = true → isRetryableGatewayStatus st = false →
        400 ≤ st →
        connectapiOutcome f c 2 = .inl (.status st) ∧ requestCalls f c 2 = 2) := by
  refine ⟨?_, ?_, ?_, ?_⟩
  · intro f c st0 st1 st2 hf0 hf1 hf2 hg0 hg1 hg2
    have h401 : st0 ≠ 401 := by
      intro h; subst h; simp [isRetryableGatewayStatus] at hg0
    cases c <;>
      simp [connectapiOutcome, requestWithAuthRetry, requestCalls, requestRefreshes,
        outerLoop, innerBody, doReq, gatewayThrownLoop, isRetryableNetworkError,
        hf0, hf1, hf2, hg0, hg1, hg2, h401]
  · intro f c st0 st1 st2 hf0 hf1 hf2 hg0 hg1 hg2
    have h401 : st0 ≠ 401 := by
      intro h; subst h; simp [isRetryableGatewayStatus] at hg0
    have hge1 : ¬ st1 < 400 := by
      simp [isRetryableGatewayStatus] at hg1; rcases hg1 with h | h | h <;> omega
    have hge2 : ¬ st2 < 400 := by
      simp [isRetryableGatewayStatus] at hg2; rcases hg2 with h | h | h <;> omega
    have hge2' : 400 ≤ st2 := by omega
    cases c <;>
      simp [connectapiOutcome, requestWithAuthRetry, requestCalls, requestRefreshes,
        outerLoop, innerBody, doReq, gatewayOkLoop, isRetryableNetworkError,
        hf0, hf1, hf2, hg0, hg1, hg2, h401, hge1, hge2, hge2']
  · intro f c st0 st hf0 hf1 hg0 hng
    have h401 : st0 ≠ 401 := by
      intro h; subst h; simp [isRetryableGatewayStatus] at hg0
    cases c <;>
      simp [connectapiOutcome, requestWithAuthRetry, requestCalls, requestRefreshes,
        outerLoop, innerBody, doReq, gatewayThrownLoop, isRetryableNetworkError,
        hf0, hf1, hg0, hng, h401]
  · intro f c st0 st hf0 hf1 hg0 hng hge
    have h401 : st0 ≠ 401 := by
      intro h; subst h; simp [isRetryableGatewayStatus] at hg0
    cases c <;>
      simp [connectapiOutcome, requestWithAuthRetry, requestCalls, requestRefreshes,
        outerLoop, innerBody, doReq, gatewayOkLoop, isRetryableNetworkError,
        hf0, hf1, hg0, hng, h401, hge]

/-- Witness for C6: three consecutive rejected 503s at `gatewayRetries = 2`
give 3 attempts and surface the failure; and a rejected 500 on the first
gateway retry is raised as-is after 2 attempts. -/
theorem claim_C6_witness :
    (connectapiOutcome (fun _ => .thrownStatus 503) 2 2 = .inl (.status 503) ∧
      requestCalls (fun _ => .thrownStatus 503) 2 2 = 3 ∧
      requestRefreshes (fun _ => .thrownStatus 503) 2 2 = 0) ∧
    (connectapiOutcome (fun n => if n = 0 then .thrownStatus 503 else .thrownStatus 500)
        2 2 = .inl (.status 500) ∧
      requestCalls (fun n => if n = 0 then .thrownStatus 503 else .thrownStatus 500)
        2 2 = 2) :=
  ⟨claim_C6_gateway_retries.1 _ 2 503 503 503 rfl rfl rfl (by decide) (by decide)
      (by decide),
   claim_C6_gateway_retries.2.2.1 _ 2 503 500 rfl rfl (by decide) (by decide)⟩

/-! ## C7 — signed-request determinism and sensitivity -/

/-- Helper: the method enters the header only through
`method.toUpperCase()` inside the signature base string, so any two
methods with the same upper-casing produce the identical header. -/
theorem buildOAuth1AuthHeader_method_congr
    (m m' url : String) (params : List (String × String))
    (oauth : OAuth1SigningParams) (timestamp nonce : String)
    (h : jsToUpperCase m = jsToUpperCase m') :
    buildOAuth1AuthHeader m url params oauth timestamp nonce =
      buildOAuth1AuthHeader m' url params oauth timestamp nonce := by
  simp only [buildOAuth1AuthHeader, buildSignatureBaseString, h]

/-- Claim C7's sensitivity half is false at a concrete input: the methods
`"get"` and `"GET"` differ, yet with identical URL, parameters, secrets,
timestamp and nonce they produce the same authorization header, because
the base string upper-cases the method. -/
theorem claim_C7_counterexample :
    buildOAuth1AuthHeader "get"
        "https://connectapi.garmin.com/oauth-service/oauth/preauthorized?ticket=T"
        [] ⟨"ck", "cs", none, none⟩ "1700000000" "0123456789abcdef" =
      buildOAuth1AuthHeader "GET"
        "https://connectapi.garmin.com/oauth-service/oauth/preauthorized?ticket=T"
        [] ⟨"ck", "cs", none, none⟩ "1700000000" "0123456789abcdef" ∧
    "get" ≠ "GET" :=
  ⟨buildOAuth1AuthHeader_method_congr _ _ _ _ _ _ _ (by decide), by decide⟩

/-- C7, amended: with the timestamp and nonce made explicit inputs the
header is a pure function of its inputs — two runs on identical inputs
give the identical value — but the value is not sensitive to every input
change: the method enters only through its upper-casing, so methods
differing only in letter case yield the identical header (and similarly
parameters with empty values are dropped from the base string). -/
theorem claim_C7_deterministic_method_case :
    (∀ (m url : String) (params : List (String × String))
        (oauth : OAuth1SigningParams) (timestamp nonce : String),
        buildOAuth1AuthHeader m url params oauth timestamp nonce =
          buildOAuth1AuthHeader m url params oauth timestamp nonce) ∧
    (∀ (m m' url : String) (params : List (String × String))
        (oauth : OAuth1SigningParams) (timestamp nonce : String),
        jsToUpperCase m = jsToUpperCase m' →
        buildOAuth1AuthHeader m url params oauth timestamp nonce =
          buildOAuth1AuthHeader m' url params oauth timestamp nonce) :=
  ⟨fun _ _ _ _ _ _ => rfl,
   fun m m' url params oauth ts nonce h =>
     buildOAuth1AuthHeader_method_congr m m' url params oauth ts nonce h⟩

/-- Witness for C7's amended statement at concrete inputs: `"post"` and
`"POST"` upper-case identically, so the headers agree. -/
theorem claim_C7_witness :
    buildOAuth1AuthHeader "post"
        "https://connectapi.garmin.com/oauth-service/oauth/exchange/user/2.0"
        [("mfa_token", "mt")] ⟨"ck", "cs", some "tok", some "ts"⟩
        "1700000000" "feedface" =
      buildOAuth1AuthHeader "POST"
        "https://connectapi.garmin.com/oauth-service/oauth/exchange/user/2.0"
        [("mfa_token", "mt")] ⟨"ck", "cs", some "tok", some "ts"⟩
        "1700000000" "feedface" :=
  claim_C7_deterministic_method_case.2 "post" "POST" _ _ _ _ _ (by decide)

end GarminCli
